import Mathlib

/-!
Verification development for the prog-lang-compare static-site generator.

The repository reads YAML configuration describing programming languages and
concepts, caches per-concept prompt templates, and renders static HTML pages
plus a sitemap.  This file gives a shallow embedding of the relevant Python
functions as executable Lean definitions and proves the specified properties
about them.

Conventions of the embedding:
 - Python strings are Lean `String`s; operations that walk code points
   (`str.lower`, `str.replace`, `str.translate`, `str.split`, slicing) are
   modelled on the underlying `List Char`.  All inputs of interest are ASCII,
   where `Char.toLower`/`Char.toUpper` agree with Python.
 - Python dicts keyed by strings are modelled as association lists in
   insertion order, which preserves the iteration order semantics of Python
   dicts that the code relies on.
 - Code that raises is modelled with `Option`/`Except`.
 - Filesystem and network effects are abstracted as explicit parameters
   (for instance the rendered file tree becomes a predicate
   `file_exists : String → Bool`, and the OpenAI endpoint becomes an oracle
   `Nat → Except ApiFault String` giving the outcome of each attempt).
-/

/-! ## Generic helpers: Python-style string and dict primitives -/

/-- Lookup in an association list modelling a Python dict (string keys). -/
def alLookup {α : Type} : List (String × α) → String → Option α
  | [], _ => none
  | (k, v) :: rest, key => if k = key then some v else alLookup rest key

/-- Assignment `d[key] = v` on a Python dict modelled as an association list: replaces the
value if the key is present, otherwise appends the new binding (Python dicts
keep insertion order). -/
def alInsert {α : Type} : List (String × α) → String → α → List (String × α)
  | [], key, v => [(key, v)]
  | (k, w) :: rest, key, v =>
    if k = key then (k, v) :: rest else (k, w) :: alInsert rest key v

/-- Inner level of the nested concept mapping: subconcept → prompt template. -/
abbrev SubMap := List (String × String)

/-- Outer level of the nested concept mapping: category → subconcept map. -/
abbrev CatMap := List (String × SubMap)

/-- Two-level lookup `m[cat][sub]` in a nested mapping. -/
def alLookup2 (m : CatMap) (cat sub : String) : Option String :=
  match alLookup m cat with
  | none => none
  | some inner => alLookup inner sub

/-- Two-level insert: `m.setdefault(cat, \x7b\x7d)[sub] = v`, creating the
category level if absent. -/
def alInsert2 (m : CatMap) (cat sub v : String) : CatMap :=
  match alLookup m cat with
  | none => alInsert m cat [(sub, v)]
  | some inner => alInsert m cat (alInsert inner sub v)

/-- Python `str.lower()` (ASCII range, which covers all inputs used). -/
def pyLower (s : String) : String := ⟨s.data.map Char.toLower⟩

/-- Python `s.replace(a, b)` where both `a` and `b` are single characters. -/
def pyReplaceChar (a b : Char) (s : String) : String :=
  ⟨s.data.map (fun c => if c = a then b else c)⟩

/-- Python `s.replace(a, "")` where `a` is a single character. -/
def pyDeleteChar (a : Char) (s : String) : String :=
  ⟨s.data.filter (fun c => c != a)⟩

/-- Python `s.replace(pat, repl)` for a nonempty pattern `p :: ps`: scans left
to right and substitutes non-overlapping occurrences. -/
def pyReplaceAux (p : Char) (ps repl : List Char) : List Char → List Char
  | [] => []
  | c :: cs =>
    if (p :: ps).isPrefixOf (c :: cs) then
      repl ++ pyReplaceAux p ps repl (cs.drop ps.length)
    else
      c :: pyReplaceAux p ps repl cs
termination_by l => l.length
decreasing_by
  · simp only [List.length_drop, List.length_cons]
    omega
  · simp only [List.length_cons]
    omega

/-- Python `s.replace(pat, repl)` for general string patterns.  The code never
calls `replace` with an empty pattern; that case is mapped to the identity. -/
def pyReplaceStr (pat repl s : String) : String :=
  match pat.data with
  | [] => s
  | p :: ps => ⟨pyReplaceAux p ps repl.data s.data⟩

/-- Python `s.split(sep)` for a one-character separator, on the character
list: no collapsing of adjacent separators, and the empty string splits to
one empty part. -/
def pySplitAux (sep : Char) : List Char → List (List Char)
  | [] => [[]]
  | c :: cs =>
    if c = sep then
      [] :: pySplitAux sep cs
    else
      match pySplitAux sep cs with
      | [] => [[c]]
      | w :: ws => (c :: w) :: ws

/-- Python `s.split(sep)` for a one-character separator. -/
def pySplitChar (sep : Char) (s : String) : List String :=
  (pySplitAux sep s.data).map (fun l => ⟨l⟩)

/-- Python `s.endswith(suffix)`. -/
def pyEndsWith (s suffix : String) : Bool :=
  suffix.data.isSuffixOf s.data

/-- Python `s.startswith(pre)`. -/
def pyStartsWith (s pre : String) : Bool :=
  pre.data.isPrefixOf s.data

/-- Python `str.title()`: the first cased character of every run of alphabetic
characters is uppercased, the rest are lowercased (ASCII range). The Boolean
argument records whether the previous character was alphabetic. -/
def pyTitleAux : Bool → List Char → List Char
  | _, [] => []
  | prevAlpha, c :: cs =>
    if c.isAlpha then
      (if prevAlpha then c.toLower else c.toUpper) :: pyTitleAux true cs
    else
      c :: pyTitleAux false cs

/-- Python `str.title()`. -/
def pyTitle (s : String) : String := ⟨pyTitleAux false s.data⟩

/-- Python `os.path.join(a, b)` on a POSIX system. -/
def osPathJoin (a b : String) : String :=
  if pyStartsWith b "/" then b
  else if a = "" then b
  else if pyEndsWith a "/" then a ++ b
  else a ++ "/" ++ b

/-! ## `src/builder/helper.py`: the safe-name mapper -/

/-- Table of exact-match overrides of `helper.get_safename`, checked before
the generic translation (`special_mappings` in the source). -/
def special_mappings : List (String × String) :=
  [("C#", "csharp"), ("C++", "cpp")]

/-- The generic translation table of `helper.get_safename`
(`str.maketrans('. ,-?()/\\\\#+', '___________')` in the source: eleven
characters, each mapped to an underscore — note that this includes the plus
sign). -/
def trans_table : List (Char × Char) :=
  [('.', '_'), (' ', '_'), (',', '_'), ('-', '_'), ('?', '_'), ('(', '_'),
   (')', '_'), ('/', '_'), ('\\', '_'), ('#', '_'), ('+', '_')]

/-- One step of Python `str.translate`: map a character through `trans_table`,
characters absent from the table pass through unchanged. -/
def translateChar (c : Char) : Char :=
  match trans_table.lookup c with
  | some d => d
  | none => c

/-- Python `value.translate(trans_table)`. -/
def pyTranslate (value : String) : String := ⟨value.data.map translateChar⟩

/-- Function `helper.get_safename(value)`: return the special mapping on an exact
match, otherwise apply the generic character translation. -/
def get_safename (value : String) : String :=
  match alLookup special_mappings value with
  | some v => v
  | none => pyTranslate value

/-! ## `plccache`: the per-language content cache

The `plccache` module itself is not under `src/` — only its test suite
`src/tests/test_plccache.py` is.  Its state and operations are therefore
modelled from the spec (section 4.2 of `spec.md`), guided by the call shapes
in the tests. -/

/-- Modelled from the spec: the module-level state of the missing `plccache`
module.  `lang_concepts` is the authoritative mapping
category → subconcept → prompt template loaded from config; `cache` is the
per-language cache mapping category → subconcept → template-text-as-last-
generated, `none` when unset (Python `None`, as exercised by
`test_update_with_none_cache`). -/
structure PlcState where
  lang_concepts : CatMap
  cache : Option CatMap

/-- Modelled from the spec: `plccache.is_cache_exist(proglang, category,
subconcept)` — true only if the cache holds a value at exactly that key path
and that value equals the current prompt-template text at the same key path
in `lang_concepts`; false on any missing key level and on a text mismatch.
The `proglang` argument is part of the call shape but the check reads only
the per-language module state. -/
def is_cache_exist (s : PlcState) (proglang category subconcept : String) : Bool :=
  match s.cache with
  | none => false
  | some c =>
    match alLookup c category with
    | none => false
    | some inner =>
      match alLookup inner subconcept with
      | none => false
      | some stored =>
        match alLookup2 s.lang_concepts category subconcept with
        | none => false
        | some current => stored == current

/-- Modelled from the spec: `plccache.update(proglang, category, subconcept)`
— initialize an unset cache to an empty mapping, auto-create the category
level if absent, record the current prompt-template text at the key path, and
persist the entire per-language cache mapping to the file named by the
safe-name mapper (returned here as the pair of file name and written
content).  Looking up a concept key absent from `lang_concepts` raises
(`none`). -/
def update (s : PlcState) (proglang category subconcept : String) :
    Option (PlcState × String × CatMap) :=
  match alLookup2 s.lang_concepts category subconcept with
  | none => none
  | some tmpl =>
    let base := s.cache.getD []
    let newCache := alInsert2 base category subconcept tmpl
    some ({ s with cache := some newCache },
          ".cache/" ++ get_safename proglang ++ ".yaml",
          newCache)

/-! ## `src/builder/openaihelper.py`: retries and error surfacing -/

/-- The three OpenAI exception kinds handled by `ai_ask`. -/
inductive ApiFault
  | rateLimit
  | connection
  | apiError
deriving DecidableEq, Repr

/-- What a call through the retry decorator can fail with: one of the API
faults directly, or `tenacity.RetryError` wrapping the fault of the last
attempt once the retry ceiling is exhausted. -/
inductive AskError
  | api (e : ApiFault)
  | retryExhausted (last : ApiFault)
deriving DecidableEq, Repr

/-- Configuration of the `tenacity.retry` decorator on
`request_text_chatcompletion`: `wait_random_exponential(min=1, max=60)` and
`stop_after_attempt(6)`. -/
structure RetryPolicy where
  wait_min : Nat
  wait_max : Nat
  stop_attempts : Nat

/-- The decorator arguments as written in the source. -/
def request_retry_policy : RetryPolicy := ⟨1, 60, 6⟩

/-- The retry loop of the `tenacity.retry` decorator.  `oracle i` is the
outcome of attempt number `i` of the underlying API call; `fuel` is the
number of further attempts permitted after the current one.  When an attempt
fails with no fuel left the last fault is surfaced wrapped in
`retryExhausted` (tenacity raises `RetryError` once `stop_after_attempt` is
reached).  The randomized exponential waits between attempts are real-time
behaviour and are represented only by `request_retry_policy`. -/
def retryFrom (oracle : Nat → Except ApiFault String) : Nat → Nat → Except AskError String
  | i, fuel =>
    match oracle i, fuel with
    | .ok s, _ => .ok s
    | .error e, 0 => .error (.retryExhausted e)
    | .error _, fuel' + 1 => retryFrom oracle (i + 1) fuel'

/-- Function `openaihelper.request_text_chatcompletion` under its retry decorator:
up to `stop_attempts` attempts in total. -/
def request_text_chatcompletion (oracle : Nat → Except ApiFault String) :
    Except AskError String :=
  retryFrom oracle 0 (request_retry_policy.stop_attempts - 1)

/-- Function `openaihelper.ai_ask`: call `request_text_chatcompletion` and handle each
error kind — every handler logs and then re-raises the same error
(`APIError`, `APIConnectionError`, `RateLimitError`, `tenacity.RetryError`
in source order). -/
def ai_ask (oracle : Nat → Except ApiFault String) : Except AskError String :=
  match request_text_chatcompletion oracle with
  | .ok s => .ok s
  | .error (.api .apiError) => .error (.api .apiError)
  | .error (.api .connection) => .error (.api .connection)
  | .error (.api .rateLimit) => .error (.api .rateLimit)
  | .error (.retryExhausted e) => .error (.retryExhausted e)

/-! ## `src/verify_sitemap.py`: the post-build integrity check -/

/-- The body of the URL loop in `verify_sitemap`: strip the base domain
(`url.replace('https://prog-lang-compare.netlify.app', '')`), then map the
remaining path to a file under the docs directory. -/
def url_to_file_path (docs_dir url : String) : String :=
  let path := pyReplaceStr "https://prog-lang-compare.netlify.app" "" url
  if path = "/" ∨ path = "" then osPathJoin docs_dir "index.html"
  else if pyEndsWith path "/" then osPathJoin docs_dir (path.drop 1 ++ "index.html")
  else osPathJoin docs_dir (path.drop 1)

/-- Function `verify_sitemap(sitemap_path, docs_dir)`: `sitemap_urls` are the
`<loc>` texts of the sitemap document in order, `file_exists` models
`os.path.exists` over the rendered file tree.  Returns
`(checked_urls, missing_files)` exactly as the Python function builds them. -/
def verify_sitemap (sitemap_urls : List String) (docs_dir : String)
    (file_exists : String → Bool) :
    List (String × String) × List (String × String) :=
  let checked := sitemap_urls.map (fun url => (url, url_to_file_path docs_dir url))
  let missing := checked.filter (fun p => !file_exists p.2)
  (checked, missing)

/-- The `__main__` block of `verify_sitemap.py`: `docs_dir` is `'docs'`, the
process exits 1 when `missing` is nonempty and 0 otherwise. -/
def verify_sitemap_exit_code (sitemap_urls : List String)
    (file_exists : String → Bool) : Nat :=
  let result := verify_sitemap sitemap_urls "docs" file_exists
  if result.2.isEmpty then 0 else 1

/-! ## `src/builder/generate_sitemap.py`: entry classification -/

/-- Constant `BASE_URL` of `generate_sitemap.py`. -/
def sitemap_BASE_URL : String := "https://srix.github.io/prog-lang-compare"

/-- One `<url>` element of the generated sitemap. -/
structure SitemapEntry where
  loc : String
  lastmod : String
  changefreq : String
  priority : String
deriving DecidableEq, Repr

/-- The entry `generate_sitemap` emits for the main index page (`lastmod`
comes from `get_git_last_modified`, abstracted as a parameter). -/
def index_sitemap_entry (lastmod : String) : SitemapEntry :=
  ⟨sitemap_BASE_URL ++ "/", lastmod, "weekly", "1.0"⟩

/-- The language-landing test of `generate_sitemap`: `rel_path.split(os.sep)`
has exactly two parts, the first is `concepts` and the second ends in
`.html` (on POSIX `os.sep` is `/`). -/
def is_language_landing (rel_path : String) : Bool :=
  let path_parts := pySplitChar '/' rel_path
  decide (path_parts.length = 2) &&
    decide (path_parts.getD 0 "" = "concepts") &&
    pyEndsWith (path_parts.getD 1 "") ".html"

/-- The entry `generate_sitemap` emits for a file found under the concepts
directory, at path `rel_path` relative to the docs directory (`url_path`
equals `rel_path` on POSIX; `lastmod` abstracted as a parameter). -/
def concept_sitemap_entry (rel_path lastmod : String) : SitemapEntry :=
  ⟨sitemap_BASE_URL ++ "/" ++ rel_path,
   lastmod,
   if is_language_landing rel_path then "weekly" else "monthly",
   if is_language_landing rel_path then "0.9" else "0.8"⟩

/-! ## The two slugify functions -/

/-- Python regex `\w` over the ASCII range (`re.sub` in
`generate_static_pages.slugify`). -/
def isWordChar (c : Char) : Bool := c.isAlphanum || c = '_'

/-- Python regex `\s` over the ASCII range. -/
def isPySpace (c : Char) : Bool :=
  c = ' ' || c = '\t' || c = '\n' || c = '\x0b' || c = '\x0c' || c = '\r'

/-- Replace every maximal run of hyphen/whitespace characters by a single
hyphen: `re.sub(r'[-\s]+', '-', slug)`. -/
def subDashSpaceRuns : List Char → List Char
  | [] => []
  | [c] => if c = '-' || isPySpace c then ['-'] else [c]
  | c1 :: c2 :: rest =>
    if c1 = '-' || isPySpace c1 then
      if c2 = '-' || isPySpace c2 then
        subDashSpaceRuns (c2 :: rest)
      else
        '-' :: subDashSpaceRuns (c2 :: rest)
    else
      c1 :: subDashSpaceRuns (c2 :: rest)

/-- Python `slug.strip('-')`. -/
def stripDashes (l : List Char) : List Char :=
  ((l.dropWhile (fun c => c = '-')).reverse.dropWhile (fun c => c = '-')).reverse

/-- Function `slugify` as defined in `generate_static_pages.py`: lowercase, drop every
character that is not word/whitespace/hyphen, collapse hyphen/whitespace
runs to single hyphens, strip leading and trailing hyphens. -/
def slugify_static (text : String) : String :=
  let lowered := (pyLower text).data
  let kept := lowered.filter (fun c => isWordChar c || isPySpace c || c = '-')
  ⟨stripDashes (subDashSpaceRuns kept)⟩

/-- Function `slugify` as defined in `generate_language_landing.py`: lowercase, then
chained single-character replacements in source order. -/
def slugify_landing (text : String) : String :=
  pyDeleteChar ')' (pyDeleteChar '(' (pyReplaceChar '/' '-'
    (pyReplaceChar '_' '-' (pyReplaceChar '.' '-'
      (pyReplaceChar ' ' '-' (pyLower text))))))

/-! ## `src/builder/generate_static_pages.py` and
`src/builder/generate_language_landing.py`: the page renderers

The HTML template literals below are the f-string bodies of the source,
with each interpolation hole replaced by the corresponding Lean value.
`get_last_modified_date` (git history / file mtime / current date) is the
single impure input of `generate_page_template` and is abstracted as the
explicit `date_modified` parameter. -/

/-- Constant `BASE_URL` of `generate_static_pages.py`. -/
def staticpages_BASE_URL : String := "https://srix.github.io/prog-lang-compare"

/-- Function `generate_related_languages_section` of `generate_static_pages.py`. -/
def generate_related_languages_section (current_language concept_slug : String)
    (all_languages : List String) : String :=
  if all_languages.isEmpty then ""
  else
    let other_languages := all_languages.filter (fun lang => lang != current_language)
    if other_languages.isEmpty then ""
    else
      let language_links := other_languages.map (fun lang =>
        let lang_slug := slugify_static lang
        let lang_display := pyReplaceChar '_' ' ' lang
        "<a href=\"../" ++ lang_slug ++ "/" ++ concept_slug ++ ".html\">" ++ lang_display ++ "</a>")
      let links_html := String.join language_links

      "\n            <section class=\"related-concepts\" style=\"margin-top: 40px; padding-top: 20px; border-top: 1px solid #eee;\">\n                <h2 style=\"font-size: 20px; margin-bottom: 15px; color: #2c3e50;\">See this concept in other languages</h2>\n                <div style=\"display: grid; grid-template-columns: repeat(auto-fill, minmax(150px, 1fr)); gap: 10px;\">\n                    "
      ++ links_html
      ++ "\n                </div>\n                <style>\n                    .related-concepts a \x7b\n                        padding: 8px 12px;\n                        background: #f5f5f5;\n                        border-radius: 4px;\n                        text-decoration: none;\n                        color: #0066cc;\n                        display: inline-block;\n                        text-align: center;\n                        transition: background 0.2s, transform 0.2s;\n                    \x7d\n                    .related-concepts a:hover \x7b\n                        background: #e5e7eb;\n                        transform: translateY(-2px);\n                    \x7d\n                </style>\n            </section>\n"

/-- Function `generate_page_template` of `generate_static_pages.py`.  `subconcept` is only
read when `parts.length > 1`, matching the Python conditional; the body is
grouped as `pre ++ (date_modified ++ post)` to expose that the timestamp
occupies a single segment of the output. -/
def generate_page_template (language concept_key concept_title content_html category : String)
    (all_languages : Option (List String)) (date_modified : String) : String :=
  let parts := pySplitChar '_' concept_key
  let subconcept := pyReplaceChar '_' ' ' (String.intercalate " " (parts.drop 1))
  let full_title :=
    if parts.length > 1 then subconcept ++ " in " ++ language
    else concept_title ++ " in " ++ language
  let description :=
    if parts.length > 1 then
      "Learn how to " ++ pyLower subconcept ++ " in " ++ language ++
        ". See code examples and detailed explanations."
    else
      "Programming concept " ++ concept_title ++ " in " ++ language ++ " with examples."
  let language_display := pyReplaceChar '_' ' ' language
  let concept_slug := slugify_static concept_key
  let language_slug := slugify_static language
  let page_url := staticpages_BASE_URL ++ "/concepts/" ++ language_slug ++ "/" ++ concept_slug ++ ".html"
  let related :=
    match all_languages with
    | none => ""
    | some ls =>
      if ls.isEmpty then ""
      else generate_related_languages_section language concept_slug ls
  (

    "<!DOCTYPE html>\n<html lang=\"en\">\n<head>\n    <meta charset=\"UTF-8\">\n    <meta name=\"viewport\" content=\"width=device-width, initial-scale=1.0\">\n\n    <!-- Primary Meta Tags -->\n    <title>"
    ++ full_title
    ++ " - Prog Lang Compare</title>\n    <meta name=\"title\" content=\""
    ++ full_title
    ++ " - Prog Lang Compare\">\n    <meta name=\"description\" content=\""
    ++ description
    ++ "\">\n    <meta name=\"keywords\" content=\""
    ++ language
    ++ ", "
    ++ concept_title
    ++ ", programming, code examples, syntax, "
    ++ category
    ++ "\">\n\n    <!-- Open Graph / Facebook -->\n    <meta property=\"og:type\" content=\"article\">\n    <meta property=\"og:url\" content=\""
    ++ page_url
    ++ "\">\n    <meta property=\"og:title\" content=\""
    ++ full_title
    ++ "\">\n    <meta property=\"og:description\" content=\""
    ++ description
    ++ "\">\n    <meta property=\"og:image\" content=\""
    ++ staticpages_BASE_URL
    ++ "/social-preview.png\">\n\n    <!-- Twitter -->\n    <meta property=\"twitter:card\" content=\"summary_large_image\">\n    <meta property=\"twitter:url\" content=\""
    ++ page_url
    ++ "\">\n    <meta property=\"twitter:title\" content=\""
    ++ full_title
    ++ "\">\n    <meta property=\"twitter:description\" content=\""
    ++ description
    ++ "\">\n    <meta property=\"twitter:image\" content=\""
    ++ staticpages_BASE_URL
    ++ "/social-preview.png\">\n\n    <!-- Canonical URL -->\n    <link rel=\"canonical\" href=\""
    ++ page_url
    ++ "\">\n\n    <!-- Favicon -->\n    <link rel=\"icon\" type=\"image/svg+xml\" href=\"../../favicon.svg\">\n\n    <!-- Inline Critical CSS -->\n    <style>\n        * \x7b\n            margin: 0;\n            padding: 0;\n            box-sizing: border-box;\n        \x7d\n\n        body \x7b\n            font-family: -apple-system, BlinkMacSystemFont, \x27Segoe UI\x27, Roboto, Oxygen, Ubuntu, Cantarell, sans-serif;\n            line-height: 1.6;\n            color: #333;\n            background-color: #f9f9f9;\n            padding: 20px;\n        \x7d\n\n        .container \x7b\n            max-width: 900px;\n            margin: 0 auto;\n            background: white;\n            padding: 30px;\n            border-radius: 8px;\n            box-shadow: 0 2px 10px rgba(0,0,0,0.1);\n        \x7d\n\n        nav.breadcrumb \x7b\n            margin-bottom: 20px;\n            padding-bottom: 10px;\n            border-bottom: 1px solid #eee;\n            font-size: 14px;\n        \x7d\n\n        nav.breadcrumb a \x7b\n            color: #0066cc;\n            text-decoration: none;\n        \x7d\n\n        nav.breadcrumb a:hover \x7b\n            text-decoration: underline;\n        \x7d\n\n        nav.breadcrumb span \x7b\n            color: #666;\n            margin: 0 5px;\n        \x7d\n\n        h1 \x7b\n            color: #2c3e50;\n            margin-bottom: 10px;\n            font-size: 28px;\n        \x7d\n\n        .meta \x7b\n            color: #666;\n            font-size: 14px;\n            margin-bottom: 30px;\n            padding: 10px;\n            background-color: #f5f5f5;\n            border-left: 4px solid #0066cc;\n        \x7d\n\n        .content \x7b\n            margin-top: 20px;\n        \x7d\n\n        .content p \x7b\n            margin-bottom: 15px;\n        \x7d\n\n        .content pre \x7b\n            background-color: #f4f4f4;\n            padding: 15px;\n            border-radius: 5px;\n            overflow-x: auto;\n            margin: 15px 0;\n            border: 1px solid #ddd;\n        \x7d\n\n        .content code \x7b\n            background-color: #f4f4f4;\n            padding: 2px 6px;\n            border-radius: 3px;\n            font-family: \x27Courier New\x27, Courier, monospace;\n            font-size: 14px;\n        \x7d\n\n        .content pre code \x7b\n            background-color: transparent;\n            padding: 0;\n        \x7d\n\n        .back-link \x7b\n            margin-top: 40px;\n            padding-top: 20px;\n            border-top: 1px solid #eee;\n        \x7d\n\n        .back-link a \x7b\n            color: #0066cc;\n            text-decoration: none;\n            font-weight: 500;\n        \x7d\n\n        .back-link a:hover \x7b\n            text-decoration: underline;\n        \x7d\n\n        footer \x7b\n            margin-top: 40px;\n            padding-top: 20px;\n            border-top: 1px solid #eee;\n            text-align: center;\n            color: #666;\n            font-size: 14px;\n        \x7d\n    </style>\n\n    <!-- Structured Data -->\n    <script type=\"application/ld+json\">\n    \x7b\n        \"@context\": \"https://schema.org\",\n        \"@type\": \"TechArticle\",\n        \"headline\": \""
    ++ full_title
    ++ "\",\n        \"description\": \""
    ++ description
    ++ "\",\n        \"keywords\": \""
    ++ language
    ++ ", "
    ++ concept_title
    ++ ", programming\",\n        \"url\": \""
    ++ page_url
    ++ "\",\n        \"datePublished\": \"2023-06-09\",\n        \"dateModified\": \""
  )
  ++ (date_modified ++ (

    "\",\n        \"author\": \x7b\n            \"@type\": \"Organization\",\n            \"name\": \"Prog Lang Compare\"\n        \x7d,\n        \"publisher\": \x7b\n            \"@type\": \"Organization\",\n            \"name\": \"Prog Lang Compare\",\n            \"url\": \""
    ++ staticpages_BASE_URL
    ++ "\"\n        \x7d,\n        \"mainEntityOfPage\": \x7b\n            \"@type\": \"WebPage\",\n            \"@id\": \""
    ++ page_url
    ++ "\"\n        \x7d\n    \x7d\n    </script>\n</head>\n<body>\n    <div class=\"container\">\n        <!-- Breadcrumb Navigation -->\n        <nav class=\"breadcrumb\" aria-label=\"Breadcrumb\">\n            <a href=\"../../index.html\">Home</a>\n            <span>›</span>\n            <a href=\"../"
    ++ language_slug
    ++ ".html\">"
    ++ language_display
    ++ "</a>\n            <span>›</span>\n            <span>"
    ++ concept_title
    ++ "</span>\n        </nav>\n\n        <!-- Main Content -->\n        <main>\n            <h1>"
    ++ full_title
    ++ "</h1>\n\n            <div class=\"meta\">\n                <strong>Category:</strong> "
    ++ category
    ++ " |\n                <strong>Language:</strong> "
    ++ language_display
    ++ "\n            </div>\n\n            <article class=\"content\">\n                "
    ++ content_html
    ++ "\n            </article>\n\n            "
    ++ related
    ++ "\n\n            <div class=\"back-link\">\n                <a href=\"../../index.html\">← Back to Full Comparison Table</a>\n            </div>\n        </main>\n\n        <footer>\n            <p>Content generated using AI | <a href=\"https://github.com/srix/prog-lang-compare\" target=\"_blank\" rel=\"noopener noreferrer\">View on GitHub</a></p>\n        </footer>\n    </div>\n</body>\n</html>"
  ))

/-- Constant `BASE_URL` of `generate_language_landing.py`. -/
def landing_BASE_URL : String := "https://prog-lang-compare.netlify.app"

/-- One entry of the per-category concept list built by
`generate_language_landing_page` (the dict with keys `key`, `name`,
`slug`). -/
structure ConceptCard where
  key : String
  name : String
  slug : String
deriving DecidableEq, Repr

/-- Operation `categories[category].append(card)` with auto-creation of the category
key, keeping dict insertion order. -/
def appendCard (cats : List (String × List ConceptCard)) (category : String)
    (card : ConceptCard) : List (String × List ConceptCard) :=
  match cats with
  | [] => [(category, [card])]
  | (k, cards) :: rest =>
    if k = category then (k, cards ++ [card]) :: rest
    else (k, cards) :: appendCard rest category card

/-- The category-grouping loop of `generate_language_landing_page`: concept
keys without an underscore are skipped; otherwise the category is the part
before the first underscore and the card records the key, the titled
subconcept name and the landing slug. -/
def buildCategories (concepts : List String) : List (String × List ConceptCard) :=
  concepts.foldl (fun cats concept_key =>
    let parts := pySplitChar '_' concept_key
    if parts.length > 1 then
      let category := parts.getD 0 ""
      let subconcept := String.intercalate "_" (parts.drop 1)
      appendCard cats category
        ⟨concept_key, pyTitle (pyReplaceChar '_' ' ' subconcept), slugify_landing concept_key⟩
    else cats) []

/-- The concept-card f-string of `generate_language_landing_page`. -/
def conceptCardHtml (sc : ConceptCard) : String :=
  "<div class=\"concept-card\"><a href=\"" ++ sc.slug ++ ".html\">" ++ sc.name ++ "</a></div>"

/-- One category section of the landing page: cards sorted by display name
(Python `sorted` is a stable ascending sort). -/
def categorySectionHtml (category : String) (subconcepts : List ConceptCard) : String :=
  let category_name := pyTitle (pyReplaceChar '_' ' ' category)
  let subconcept_cards :=
    String.join ((subconcepts.mergeSort (fun a b => a.name ≤ b.name)).map conceptCardHtml)

  "\n        <section class=\"category-section\">\n            <h3>"
  ++ category_name
  ++ "</h3>\n            <div class=\"grid\">\n                "
  ++ subconcept_cards
  ++ "\n            </div>\n        </section>\n        "

/-- Function `generate_language_landing_page` of `generate_language_landing.py`: the HTML
document produced for one language (the Python function also writes it to
`concepts/<slug>.html` and returns that path; the written bytes are the
value modelled here). -/
def generate_language_landing_page (language : String) (concepts : List String) : String :=
  let slug := slugify_landing language
  let safe_name := get_safename language
  let language_display := pyReplaceChar '_' ' ' language
  let categories := buildCategories concepts
  let sorted_categories := categories.mergeSort (fun a b => a.1 ≤ b.1)
  let all_concepts_html :=
    String.join (sorted_categories.map (fun p => categorySectionHtml p.1 p.2))
  "<!DOCTYPE html>\n<html lang=\"en\">\n<head>\n    <meta charset=\"UTF-8\">\n    <meta name=\"viewport\" content=\"width=device-width, initial-scale=1.0\">\n\n    <!-- Primary Meta Tags -->\n    <title>"
    ++ language_display
    ++ " Programming Concepts - Prog Lang Compare</title>\n    <meta name=\"title\" content=\""
    ++ language_display
    ++ " Programming Concepts - Prog Lang Compare\">\n    <meta name=\"description\" content=\"Learn "
    ++ language_display
    ++ " programming with "
    ++ (toString concepts.length)
    ++ " detailed concept explanations and code examples. Compare syntax, features, and best practices with other languages.\">\n    <meta name=\"keywords\" content=\""
    ++ language_display
    ++ ", programming, code examples, syntax, tutorial, reference\">\n\n    <!-- Open Graph / Facebook -->\n    <meta property=\"og:type\" content=\"website\">\n    <meta property=\"og:url\" content=\""
    ++ landing_BASE_URL
    ++ "/concepts/"
    ++ slug
    ++ ".html\">\n    <meta property=\"og:title\" content=\""
    ++ language_display
    ++ " Programming Concepts\">\n    <meta property=\"og:description\" content=\"Learn "
    ++ language_display
    ++ " with "
    ++ (toString concepts.length)
    ++ " detailed concept explanations and code examples.\">\n    <meta property=\"og:image\" content=\""
    ++ landing_BASE_URL
    ++ "/social-preview.png\">\n\n    <!-- Twitter -->\n    <meta property=\"twitter:card\" content=\"summary_large_image\">\n    <meta property=\"twitter:url\" content=\""
    ++ landing_BASE_URL
    ++ "/concepts/"
    ++ slug
    ++ ".html\">\n    <meta property=\"twitter:title\" content=\""
    ++ language_display
    ++ " Programming Concepts\">\n    <meta property=\"twitter:description\" content=\"Learn "
    ++ language_display
    ++ " with "
    ++ (toString concepts.length)
    ++ " detailed concept explanations.\">\n    <meta property=\"twitter:image\" content=\""
    ++ landing_BASE_URL
    ++ "/social-preview.png\">\n\n    <!-- Canonical URL -->\n    <link rel=\"canonical\" href=\""
    ++ landing_BASE_URL
    ++ "/concepts/"
    ++ slug
    ++ ".html\">\n\n    <!-- Favicon -->\n    <link rel=\"icon\" type=\"image/svg+xml\" href=\"../favicon.svg\">\n\n    <style>\n        * \x7b\n            margin: 0;\n            padding: 0;\n            box-sizing: border-box;\n        \x7d\n\n        body \x7b\n            font-family: -apple-system, BlinkMacSystemFont, \x27Segoe UI\x27, Roboto, Oxygen, Ubuntu, Cantarell, sans-serif;\n            max-width: 1200px;\n            margin: 0 auto;\n            padding: 20px;\n            line-height: 1.6;\n            color: #333;\n            background-color: #f9f9f9;\n        \x7d\n\n        nav \x7b\n            margin-bottom: 30px;\n            padding-bottom: 15px;\n            border-bottom: 2px solid #e5e7eb;\n        \x7d\n\n        nav a \x7b\n            color: #0066cc;\n            text-decoration: none;\n            font-size: 14px;\n        \x7d\n\n        nav a:hover \x7b\n            text-decoration: underline;\n        \x7d\n\n        h1 \x7b\n            color: #2c3e50;\n            font-size: 36px;\n            margin-bottom: 10px;\n        \x7d\n\n        .intro \x7b\n            font-size: 18px;\n            color: #666;\n            margin-bottom: 40px;\n        \x7d\n\n        .stats \x7b\n            background: #fff;\n            padding: 20px;\n            border-radius: 8px;\n            margin-bottom: 40px;\n            box-shadow: 0 2px 4px rgba(0,0,0,0.1);\n        \x7d\n\n        .stats-grid \x7b\n            display: grid;\n            grid-template-columns: repeat(auto-fit, minmax(200px, 1fr));\n            gap: 20px;\n        \x7d\n\n        .stat-item \x7b\n            text-align: center;\n        \x7d\n\n        .stat-number \x7b\n            font-size: 36px;\n            font-weight: bold;\n            color: #0066cc;\n        \x7d\n\n        .stat-label \x7b\n            font-size: 14px;\n            color: #666;\n            margin-top: 5px;\n        \x7d\n\n        .category-section \x7b\n            margin-bottom: 40px;\n        \x7d\n\n        h2, h3 \x7b\n            color: #2c3e50;\n            margin-bottom: 20px;\n        \x7d\n\n        h3 \x7b\n            font-size: 24px;\n            border-left: 4px solid #0066cc;\n            padding-left: 15px;\n        \x7d\n\n        .grid \x7b\n            display: grid;\n            grid-template-columns: repeat(auto-fill, minmax(250px, 1fr));\n            gap: 15px;\n            margin-bottom: 30px;\n        \x7d\n\n        .concept-card \x7b\n            background: #fff;\n            padding: 15px 20px;\n            border-radius: 8px;\n            box-shadow: 0 2px 4px rgba(0,0,0,0.1);\n            transition: transform 0.2s, box-shadow 0.2s;\n        \x7d\n\n        .concept-card:hover \x7b\n            transform: translateY(-2px);\n            box-shadow: 0 4px 8px rgba(0,0,0,0.15);\n        \x7d\n\n        .concept-card a \x7b\n            text-decoration: none;\n            color: #0066cc;\n            font-weight: 500;\n        \x7d\n\n        .concept-card a:hover \x7b\n            text-decoration: underline;\n        \x7d\n\n        footer \x7b\n            margin-top: 60px;\n            padding-top: 20px;\n            border-top: 2px solid #e5e7eb;\n            text-align: center;\n            color: #666;\n            font-size: 14px;\n        \x7d\n\n        footer a \x7b\n            color: #0066cc;\n            text-decoration: none;\n        \x7d\n\n        footer a:hover \x7b\n            text-decoration: underline;\n        \x7d\n\n        @media (max-width: 768px) \x7b\n            body \x7b\n                padding: 15px;\n            \x7d\n\n            h1 \x7b\n                font-size: 28px;\n            \x7d\n\n            .intro \x7b\n                font-size: 16px;\n            \x7d\n\n            .grid \x7b\n                grid-template-columns: 1fr;\n            \x7d\n        \x7d\n    </style>\n\n    <!-- Structured Data -->\n    <script type=\"application/ld+json\">\n    \x7b\n        \"@context\": \"https://schema.org\",\n        \"@type\": \"CollectionPage\",\n        \"name\": \""
    ++ language_display
    ++ " Programming Concepts\",\n        \"description\": \"Learn "
    ++ language_display
    ++ " programming with "
    ++ (toString concepts.length)
    ++ " detailed concept explanations and code examples.\",\n        \"url\": \""
    ++ landing_BASE_URL
    ++ "/concepts/"
    ++ slug
    ++ ".html\",\n        \"isPartOf\": \x7b\n            \"@type\": \"WebSite\",\n            \"name\": \"Prog Lang Compare\",\n            \"url\": \""
    ++ landing_BASE_URL
    ++ "\"\n        \x7d,\n        \"about\": \x7b\n            \"@type\": \"ComputerLanguage\",\n            \"name\": \""
    ++ language_display
    ++ "\"\n        \x7d\n    \x7d\n    </script>\n</head>\n<body>\n    <nav>\n        <a href=\"../index.html\">← Back to Language Comparison Table</a>\n    </nav>\n\n    <header>\n        <h1>"
    ++ language_display
    ++ " Programming Concepts</h1>\n        <p class=\"intro\">Explore "
    ++ language_display
    ++ " programming with detailed explanations and code examples across "
    ++ (toString concepts.length)
    ++ " concepts.</p>\n    </header>\n\n    <div class=\"stats\">\n        <div class=\"stats-grid\">\n            <div class=\"stat-item\">\n                <div class=\"stat-number\">"
    ++ (toString concepts.length)
    ++ "</div>\n                <div class=\"stat-label\">Concepts Covered</div>\n            </div>\n            <div class=\"stat-item\">\n                <div class=\"stat-number\">"
    ++ (toString categories.length)
    ++ "</div>\n                <div class=\"stat-label\">Categories</div>\n            </div>\n        </div>\n    </div>\n\n    <main>\n        <h2>All Concepts</h2>\n        "
    ++ all_concepts_html
    ++ "\n    </main>\n\n    <footer>\n        <p>Content generated using AI | <a href=\"https://github.com/srix/prog-lang-compare\" target=\"_blank\" rel=\"noopener noreferrer\">View on GitHub</a></p>\n    </footer>\n</body>\n</html>"

/-- The file name under the concepts directory at which
`generate_language_landing_page` writes a language landing page
(`os.path.join(CONCEPTS_DIR, f\x27\x7bslug\x7d.html\x27)` in the source). -/
def landing_output_filename (language : String) : String :=
  slugify_landing language ++ ".html"

/-- The breadcrumb href a concept page writes for its language landing page
(`<a href="../\x7blanguage_slug\x7d.html">` in `generate_page_template`). -/
def concept_breadcrumb_href (language : String) : String :=
  "../" ++ slugify_static language ++ ".html"


/-! ## Domain of agreement of the two slugify functions

The two `slugify` implementations disagree in general (for instance on
`"Python 3.10"`).  The following decidable predicate carves out the labels on
which they agree: labels whose lowercased form consists only of ASCII
lowercase letters, digits, and isolated interior spaces or hyphens.  It is
used to state the amended agreement claim. -/

/-- Character class on which the collapse step and the landing replacements
act identically: space or hyphen. -/
def isSepChar (c : Char) : Bool := c = ' ' || c = '-'

/-- The alphabet on which the two slugify functions agree pointwise. -/
def slugAgreeChars : List Char := "abcdefghijklmnopqrstuvwxyz0123456789 -".data

/-- No two adjacent separator characters. -/
def noAdjSep : List Char → Bool
  | [] => true
  | [_] => true
  | c1 :: c2 :: rest => !(isSepChar c1 && isSepChar c2) && noAdjSep (c2 :: rest)

/-- Labels whose lowercased form consists of letters, digits, and isolated
interior spaces or hyphens. -/
def goodLabel (s : String) : Bool :=
  let l := (pyLower s).data
  l.all (fun c => decide (c ∈ slugAgreeChars)) && noAdjSep l &&
    (match l.head? with | some c => !isSepChar c | none => true) &&
    (match l.getLast? with | some c => !isSepChar c | none => true)

/-- The common pointwise action of both slugify pipelines on the agreement
alphabet. -/
def spaceToDash (c : Char) : Char := if c = ' ' then '-' else c

/-! ## Theorems -/


/-! ### Association-list lemmas shared by the cache claims -/

/-- Lookup after insert at the same key. -/
theorem alLookup_alInsert_self {α : Type} (m : List (String × α)) (k : String) (v : α) :
    alLookup (alInsert m k v) k = some v := by
  induction m with
  | nil => simp [alInsert, alLookup]
  | cons hd tl ih =>
    obtain ⟨k', w⟩ := hd
    by_cases hk : k' = k
    · simp [alInsert, alLookup, hk]
    · simp [alInsert, alLookup, hk, ih]

/-- Lookup after insert at a different key. -/
theorem alLookup_alInsert_ne {α : Type} (m : List (String × α)) (k k' : String) (v : α)
    (h : k' ≠ k) : alLookup (alInsert m k v) k' = alLookup m k' := by
  induction m with
  | nil => simp [alInsert, alLookup, Ne.symm h]
  | cons hd tl ih =>
    obtain ⟨k₀, w⟩ := hd
    by_cases hk : k₀ = k
    · subst hk
      simp [alInsert, alLookup, Ne.symm h]
    · simp [alInsert, alLookup, hk, ih]

/-- Nested lookup after nested insert at the same key path. -/
theorem alLookup2_alInsert2_self (m : CatMap) (cat sub v : String) :
    alLookup2 (alInsert2 m cat sub v) cat sub = some v := by
  unfold alInsert2
  cases hcat : alLookup m cat with
  | none =>
    simp [alLookup2, alLookup_alInsert_self, alLookup]
  | some inner =>
    simp [alLookup2, alLookup_alInsert_self, alLookup_alInsert_self]

/-- Nested lookup after nested insert at a different key path. -/
theorem alLookup2_alInsert2_ne (m : CatMap) (cat sub v cat' sub' : String)
    (h : ¬(cat' = cat ∧ sub' = sub)) :
    alLookup2 (alInsert2 m cat sub v) cat' sub' = alLookup2 m cat' sub' := by
  by_cases hcat : cat' = cat
  · subst hcat
    have hsub : sub' ≠ sub := fun hh => h ⟨rfl, hh⟩
    unfold alInsert2
    cases hc : alLookup m cat' with
    | none =>
      simp [alLookup2, alLookup_alInsert_self, hc, alLookup, Ne.symm hsub]
    | some inner =>
      simp [alLookup2, alLookup_alInsert_self, hc, alLookup_alInsert_ne _ _ _ _ hsub]
  · unfold alInsert2
    cases hc : alLookup m cat with
    | none => simp [alLookup2, alLookup_alInsert_ne _ _ _ _ hcat]
    | some inner => simp [alLookup2, alLookup_alInsert_ne _ _ _ _ hcat]

/-- Characterization of the staleness check as a statement about the two
nested lookups. -/
theorem cache_exists_iff (s : PlcState) (lang cat sub : String) :
    is_cache_exist s lang cat sub = true ↔
      ∃ c stored, s.cache = some c ∧ alLookup2 c cat sub = some stored ∧
        alLookup2 s.lang_concepts cat sub = some stored := by
  cases hc : s.cache with
  | none => simp [is_cache_exist, hc]
  | some c =>
    cases hcat : alLookup c cat with
    | none =>
      have hcc : alLookup2 c cat sub = none := by simp [alLookup2, hcat]
      simp [is_cache_exist, hc, hcat, hcc]
    | some inner =>
      cases hsub : alLookup inner sub with
      | none =>
        have hcc : alLookup2 c cat sub = none := by simp [alLookup2, hcat, hsub]
        simp [is_cache_exist, hc, hcat, hsub, hcc]
      | some stored =>
        have hcc : alLookup2 c cat sub = some stored := by simp [alLookup2, hcat, hsub]
        cases hauth : alLookup2 s.lang_concepts cat sub with
        | none => simp [is_cache_exist, hc, hcat, hsub, hauth, hcc]
        | some current =>
          have hlhs : is_cache_exist s lang cat sub = (stored == current) := by
            simp [is_cache_exist, hc, hcat, hsub, hauth]
          rw [hlhs]
          constructor
          · intro hb
            exact ⟨c, stored, rfl, hcc, congrArg some (beq_iff_eq.mp hb).symm⟩
          · rintro ⟨c', stored', hceq, hcc', hauth'⟩
            injection hceq with hce
            subst hce
            rw [hcc] at hcc'
            injection hcc' with hse
            injection hauth' with hae
            rw [beq_iff_eq]
            exact hse.trans hae.symm

/-! ### Lemmas about the safe-name translation table -/

/-- Characters in the translation table map to underscore. -/
theorem translateChar_mem {c : Char} (h : c ∈ trans_table.map Prod.fst) :
    translateChar c = '_' := by
  fin_cases h <;> rfl

/-- Characters outside the translation table pass through. -/
theorem translateChar_not_mem {c : Char} (h : c ∉ trans_table.map Prod.fst) :
    translateChar c = c := by
  simp [trans_table] at h
  obtain ⟨h1, h2, h3, h4, h5, h6, h7, h8, h9, h10, h11⟩ := h
  simp [translateChar, trans_table, List.lookup,
    beq_eq_false_iff_ne.mpr h1, beq_eq_false_iff_ne.mpr h2, beq_eq_false_iff_ne.mpr h3,
    beq_eq_false_iff_ne.mpr h4, beq_eq_false_iff_ne.mpr h5, beq_eq_false_iff_ne.mpr h6,
    beq_eq_false_iff_ne.mpr h7, beq_eq_false_iff_ne.mpr h8, beq_eq_false_iff_ne.mpr h9,
    beq_eq_false_iff_ne.mpr h10, beq_eq_false_iff_ne.mpr h11]

/-- On non-override inputs the safe-name mapper is the generic translation. -/
theorem get_safename_no_override {value : String} (h1 : value ≠ "C#") (h2 : value ≠ "C++") :
    get_safename value = pyTranslate value := by
  simp [get_safename, special_mappings, alLookup, Ne.symm h1, Ne.symm h2]

/-! ### Lemmas about the Python split used by the sitemap classification -/

/-- Splitting a separator-free list yields one part. -/
theorem pySplitAux_no_sep (sep : Char) (l : List Char) (h : sep ∉ l) :
    pySplitAux sep l = [l] := by
  induction l with
  | nil => rfl
  | cons c cs ih =>
    have hc : ¬c = sep := fun hh => h (hh ▸ List.mem_cons_self c cs)
    have hcs : sep ∉ cs := fun hh => h (List.mem_cons_of_mem _ hh)
    simp only [pySplitAux, if_neg hc, ih hcs]

/-- Splitting after a separator-free prefix extends the first part. -/
theorem pySplitAux_append (sep : Char) (l r : List Char) (h : sep ∉ l)
    (w : List Char) (ws : List (List Char)) (hr : pySplitAux sep r = w :: ws) :
    pySplitAux sep (l ++ r) = (l ++ w) :: ws := by
  induction l with
  | nil => simpa using hr
  | cons c cs ih =>
    have hc : ¬c = sep := fun hh => h (hh ▸ List.mem_cons_self c cs)
    have hcs : sep ∉ cs := fun hh => h (List.mem_cons_of_mem _ hh)
    simp only [List.cons_append, pySplitAux, if_neg hc, List.append_eq]
    rw [ih hcs]

/-- Splitting at a leading separator emits an empty part. -/
theorem pySplitAux_sep_cons (sep : Char) (r : List Char) :
    pySplitAux sep (sep :: r) = [] :: pySplitAux sep r := by
  simp [pySplitAux]

/-- Split of a language-landing relative path. -/
theorem landing_split (name : String) (h : '/' ∉ name.data) :
    pySplitChar '/' ("concepts/" ++ name ++ ".html") = ["concepts", name ++ ".html"] := by
  have hd : ("concepts/" ++ name ++ ".html").data =
      "concepts".data ++ ('/' :: (name.data ++ ".html".data)) := by
    rw [String.data_append, String.data_append]
    have hcd : ("concepts/" : String).data = "concepts".data ++ ['/'] := by decide
    rw [hcd]
    simp [List.append_assoc]
  have hX : '/' ∉ name.data ++ ".html".data := by
    intro hm
    rcases List.mem_append.mp hm with hm1 | hm2
    · exact h hm1
    · exact absurd hm2 (by decide)
  have h2 : pySplitAux '/' (name.data ++ ".html".data) = [name.data ++ ".html".data] :=
    pySplitAux_no_sep _ _ hX
  have h1 : pySplitAux '/' ('/' :: (name.data ++ ".html".data)) =
      [] :: [name.data ++ ".html".data] := by
    rw [pySplitAux_sep_cons, h2]
  have h3 : pySplitAux '/' ("concepts".data ++ ('/' :: (name.data ++ ".html".data))) =
      ("concepts".data ++ []) :: [name.data ++ ".html".data] :=
    pySplitAux_append '/' _ _ (by decide) _ _ h1
  unfold pySplitChar
  rw [hd, h3]
  rfl

/-- Split of an individual concept-page relative path has three parts. -/
theorem concept_deep_split (lang concept : String) (h1 : '/' ∉ lang.data)
    (h2 : '/' ∉ concept.data) :
    (pySplitChar '/' ("concepts/" ++ lang ++ "/" ++ concept ++ ".html")).length = 3 := by
  have hd : ("concepts/" ++ lang ++ "/" ++ concept ++ ".html").data =
      "concepts".data ++ ('/' :: (lang.data ++ ('/' :: (concept.data ++ ".html".data)))) := by
    rw [String.data_append, String.data_append, String.data_append, String.data_append]
    have hcd : ("concepts/" : String).data = "concepts".data ++ ['/'] := by decide
    have hsd : ("/" : String).data = ['/'] := by decide
    rw [hcd, hsd]
    simp [List.append_assoc]
  have hX : '/' ∉ concept.data ++ ".html".data := by
    intro hm
    rcases List.mem_append.mp hm with hm1 | hm2
    · exact h2 hm1
    · exact absurd hm2 (by decide)
  have e2 : pySplitAux '/' (concept.data ++ ".html".data) = [concept.data ++ ".html".data] :=
    pySplitAux_no_sep _ _ hX
  have e1 : pySplitAux '/' ('/' :: (concept.data ++ ".html".data)) =
      [] :: [concept.data ++ ".html".data] := by
    rw [pySplitAux_sep_cons, e2]
  have e0 : pySplitAux '/' (lang.data ++ ('/' :: (concept.data ++ ".html".data))) =
      (lang.data ++ []) :: [concept.data ++ ".html".data] :=
    pySplitAux_append '/' _ _ h1 _ _ e1
  have em1 : pySplitAux '/' ('/' :: (lang.data ++ ('/' :: (concept.data ++ ".html".data)))) =
      [] :: ((lang.data ++ []) :: [concept.data ++ ".html".data]) := by
    rw [pySplitAux_sep_cons, e0]
  have em0 : pySplitAux '/'
      ("concepts".data ++ ('/' :: (lang.data ++ ('/' :: (concept.data ++ ".html".data))))) =
      ("concepts".data ++ []) :: ((lang.data ++ []) :: [concept.data ++ ".html".data]) :=
    pySplitAux_append '/' _ _ (by decide) _ _ em1
  unfold pySplitChar
  rw [hd, em0]
  rfl

/-- Appending the page extension always satisfies the suffix test. -/
theorem html_suffix (name : String) :
    pyEndsWith (name ++ ".html") ".html" = true := by
  unfold pyEndsWith
  rw [String.data_append]
  have hsuf : ".html".data <:+ name.data ++ ".html".data := List.suffix_append _ _
  exact List.isSuffixOf_iff_suffix.mpr hsuf

/-! ### Lemmas for the slugify agreement domain -/

/-- Membership of the last element. -/
theorem mem_of_getLast_some {l : List Char} {x : Char} (hx : l.getLast? = some x) : x ∈ l := by
  have hrx : l.reverse.head? = some x := by rw [List.head?_reverse, hx]
  cases hr : l.reverse with
  | nil => rw [hr] at hrx; exact absurd hrx (by simp)
  | cons b tb =>
    rw [hr] at hrx
    injection hrx with hbx
    subst hbx
    exact List.mem_reverse.mp (by rw [hr]; exact List.mem_cons_self _ _)

/-- Every agreement character survives the keep-filter of the static slugify. -/
theorem agree_keep {c : Char} (h : c ∈ slugAgreeChars) :
    (isWordChar c || isPySpace c || c = '-') = true := by
  fin_cases h <;> rfl

/-- On agreement characters, the collapse test coincides with `isSepChar`. -/
theorem agree_septest {c : Char} (h : c ∈ slugAgreeChars) :
    (c = '-' || isPySpace c) = isSepChar c := by
  fin_cases h <;> rfl

/-- On agreement characters, the chained landing replacements act as
`spaceToDash`. -/
theorem agree_chain {c : Char} (h : c ∈ slugAgreeChars) :
    ((fun c => if c = '/' then '-' else c)
      ((fun c => if c = '_' then '-' else c)
        ((fun c => if c = '.' then '-' else c)
          ((fun c => if c = ' ' then '-' else c) c)))) = spaceToDash c := by
  fin_cases h <;> rfl

/-- The image of an agreement character is never a parenthesis. -/
theorem agree_nonparen {c : Char} (h : c ∈ slugAgreeChars) :
    (spaceToDash c != '(') = true ∧ (spaceToDash c != ')') = true := by
  fin_cases h <;> exact ⟨rfl, rfl⟩

/-- Non-separator agreement characters are fixed and differ from the dash. -/
theorem agree_nonsep_fix {c : Char} (h : c ∈ slugAgreeChars) (hs : isSepChar c = false) :
    spaceToDash c = c ∧ c ≠ '-' := by
  fin_cases h <;> simp_all [isSepChar, spaceToDash]

/-- Separator agreement characters map to the dash. -/
theorem agree_sep_dash {c : Char} (h : c ∈ slugAgreeChars) (hs : isSepChar c = true) :
    spaceToDash c = '-' := by
  fin_cases h <;> simp_all [isSepChar, spaceToDash]

/-- With no adjacent separators, the run-collapsing substitution acts
pointwise. -/
theorem collapse_eq_map (l : List Char) (hmem : ∀ c ∈ l, c ∈ slugAgreeChars)
    (hadj : noAdjSep l = true) : subDashSpaceRuns l = l.map spaceToDash := by
  induction l with
  | nil => rfl
  | cons c1 tl ih =>
    have hc1 : c1 ∈ slugAgreeChars := hmem c1 (List.mem_cons_self _ _)
    cases tl with
    | nil =>
      show (if c1 = '-' || isPySpace c1 then ['-'] else [c1]) = [spaceToDash c1]
      rw [agree_septest hc1]
      cases hs : isSepChar c1 with
      | true => simp [agree_sep_dash hc1 hs]
      | false => simp [(agree_nonsep_fix hc1 hs).1]
    | cons c2 rest =>
      have hmem' : ∀ c ∈ c2 :: rest, c ∈ slugAgreeChars :=
        fun c hc => hmem c (List.mem_cons_of_mem _ hc)
      have hadj2 : noAdjSep (c2 :: rest) = true := by
        have := hadj
        simp only [noAdjSep, Bool.and_eq_true] at this
        exact this.2
      have hnotand : (isSepChar c1 && isSepChar c2) = false := by
        have := hadj
        simp only [noAdjSep, Bool.and_eq_true, Bool.not_eq_true'] at this
        exact this.1
      have ihx := ih hmem' hadj2
      show (if c1 = '-' || isPySpace c1 then
          if c2 = '-' || isPySpace c2 then subDashSpaceRuns (c2 :: rest)
          else '-' :: subDashSpaceRuns (c2 :: rest)
        else c1 :: subDashSpaceRuns (c2 :: rest)) = spaceToDash c1 :: (c2 :: rest).map spaceToDash
      rw [agree_septest hc1, agree_septest (hmem' c2 (List.mem_cons_self _ _))]
      cases hs : isSepChar c1 with
      | true =>
        have hs2 : isSepChar c2 = false := by
          cases hq : isSepChar c2 with
          | false => rfl
          | true => rw [hs, hq] at hnotand; exact absurd hnotand (by decide)
        simp only [if_pos rfl, hs2, if_neg (by decide : ¬False)]
        rw [ihx, agree_sep_dash hc1 hs]
        simp
      | false =>
        simp only [Bool.false_eq_true, if_neg (by decide : ¬False)]
        rw [ihx, (agree_nonsep_fix hc1 hs).1]

/-- With non-separator endpoints, stripping dashes is the identity. -/
theorem strip_of_ends (l : List Char) (hmem : ∀ c ∈ l, c ∈ slugAgreeChars)
    (hh : ∀ x, l.head? = some x → isSepChar x = false)
    (hl : ∀ x, l.getLast? = some x → isSepChar x = false) :
    stripDashes (l.map spaceToDash) = l.map spaceToDash := by
  unfold stripDashes
  have h1 : (l.map spaceToDash).dropWhile (fun c => c = '-') = l.map spaceToDash := by
    cases l with
    | nil => rfl
    | cons a tl =>
      have ha : isSepChar a = false := hh a rfl
      have hfix := agree_nonsep_fix (hmem a (List.mem_cons_self _ _)) ha
      have hne : spaceToDash a ≠ '-' := by rw [hfix.1]; exact hfix.2
      simp only [List.map_cons, List.dropWhile_cons, decide_eq_true_eq]
      rw [if_neg hne]
  rw [h1]
  have h2 : (l.map spaceToDash).reverse.dropWhile (fun c => c = '-') =
      (l.map spaceToDash).reverse := by
    cases hrev : (l.map spaceToDash).reverse with
    | nil => rfl
    | cons b tb =>
      have hb : (l.map spaceToDash).getLast? = some b := by
        rw [← List.head?_reverse, hrev]
        rfl
      rw [List.getLast?_map] at hb
      rcases Option.map_eq_some'.mp hb with ⟨x, hx, hxb⟩
      have hxs : isSepChar x = false := hl x hx
      have hfix := agree_nonsep_fix (hmem x (mem_of_getLast_some hx)) hxs
      have hbne : b ≠ '-' := by
        rw [← hxb, hfix.1]
        exact hfix.2
      simp only [List.dropWhile_cons, decide_eq_true_eq]
      rw [if_neg hbne]
  rw [h2, List.reverse_reverse]

/-- The landing pipeline acts pointwise as `spaceToDash` over the agreement
alphabet. -/
theorem landing_chain_list (l : List Char) (h : ∀ c ∈ l, c ∈ slugAgreeChars) :
    List.filter (fun c => c != ')') (List.filter (fun c => c != '(')
      ((((l.map (fun c => if c = ' ' then '-' else c)).map
        (fun c => if c = '.' then '-' else c)).map
        (fun c => if c = '_' then '-' else c)).map
        (fun c => if c = '/' then '-' else c)))
    = l.map spaceToDash := by
  induction l with
  | nil => rfl
  | cons a tl ih =>
    have ha := h a (List.mem_cons_self _ _)
    have htl : ∀ c ∈ tl, c ∈ slugAgreeChars := fun c hc => h c (List.mem_cons_of_mem _ hc)
    simp only [List.map_cons]
    simp only [agree_chain ha]
    rw [@List.filter_cons_of_pos Char (fun c => c != '(') (spaceToDash a) _
        ((agree_nonparen ha).1),
      @List.filter_cons_of_pos Char (fun c => c != ')') (spaceToDash a) _
        ((agree_nonparen ha).2)]
    rw [ih htl]

/-- The landing slugify equals the pointwise substitution on good labels. -/
theorem landing_eq_map (s : String) (hmem : ∀ c ∈ (pyLower s).data, c ∈ slugAgreeChars) :
    slugify_landing s = ⟨(pyLower s).data.map spaceToDash⟩ := by
  unfold slugify_landing pyDeleteChar pyReplaceChar
  apply congrArg String.mk
  exact landing_chain_list (pyLower s).data hmem

/-- The two slugify implementations agree on good labels. -/
theorem slugify_agree (s : String) (h : goodLabel s = true) :
    slugify_static s = slugify_landing s := by
  simp only [goodLabel, Bool.and_eq_true] at h
  obtain ⟨⟨⟨hall, hadj⟩, hhead⟩, hlast⟩ := h
  have hmem : ∀ c ∈ (pyLower s).data, c ∈ slugAgreeChars := by
    intro c hc
    have := List.all_eq_true.mp hall c hc
    simpa using this
  have hh : ∀ x, (pyLower s).data.head? = some x → isSepChar x = false := by
    intro x hx
    rw [hx] at hhead
    simpa using hhead
  have hl : ∀ x, (pyLower s).data.getLast? = some x → isSepChar x = false := by
    intro x hx
    rw [hx] at hlast
    simpa using hlast
  have e1 : (pyLower s).data.filter (fun c => isWordChar c || isPySpace c || c = '-') =
      (pyLower s).data :=
    List.filter_eq_self.mpr (fun c hc => by simpa using agree_keep (hmem c hc))
  have static_eq : slugify_static s =
      ⟨stripDashes (subDashSpaceRuns ((pyLower s).data.filter
        (fun c => isWordChar c || isPySpace c || c = '-')))⟩ := rfl
  rw [static_eq, e1, collapse_eq_map _ hmem hadj, strip_of_ends _ hmem hh hl,
    landing_eq_map s hmem]

/-! ### Claim theorems -/

/-- Claim C1 (spec-modelled `plccache`): the staleness check
`is_cache_exist(language, category, subconcept)` returns true if and only if
the per-language cache holds a value at exactly that category/subconcept key
path and that value is string-equal to the current prompt-template text at
the same key path in the authoritative concept definitions; it is false
whenever the category level is missing, the subconcept level is missing, or
the stored text differs. -/
theorem c1_is_cache_exist_iff (s : PlcState) (lang cat sub : String) :
    is_cache_exist s lang cat sub = true ↔
      ∃ c stored, s.cache = some c ∧ alLookup2 c cat sub = some stored ∧
        alLookup2 s.lang_concepts cat sub = some stored :=
  cache_exists_iff s lang cat sub

/-- Claim C2, counterexample: the claim asserts that a plus sign survives the
generic translation unchanged, but the translation table of `get_safename`
contains the plus sign, so `"a+b"` maps to `"a_b"`, not to itself. -/
theorem c2_plus_counterexample : get_safename "a+b" = "a_b" ∧ "a_b" ≠ "a+b" := by
  constructor
  · rfl
  · decide

/-- Claim C2 (amended): for every input that is not one of the exact-match
overrides, `get_safename` replaces every occurrence of the eleven characters
of its translation table — period, space, comma, hyphen, question mark, the
two parentheses, slash, backslash, hash, and also the plus sign — with an
underscore, and leaves every character outside that table unchanged at its
position. -/
theorem c2_translation_amended (value : String) (h1 : value ≠ "C#") (h2 : value ≠ "C++") :
    get_safename value = pyTranslate value ∧
    (get_safename value).data.length = value.data.length ∧
    (∀ i : Nat, (get_safename value).data[i]? = (value.data[i]?).map translateChar) ∧
    (∀ i : Nat, ∀ c : Char, value.data[i]? = some c → c ∈ trans_table.map Prod.fst →
      (get_safename value).data[i]? = some '_') ∧
    (∀ i : Nat, ∀ c : Char, value.data[i]? = some c → c ∉ trans_table.map Prod.fst →
      (get_safename value).data[i]? = some c) := by
  have hg := get_safename_no_override h1 h2
  refine ⟨hg, ?_, ?_, ?_, ?_⟩
  · rw [hg]
    simp [pyTranslate]
  · intro i
    rw [hg]
    simp [pyTranslate]
  · intro i c hc hmem
    rw [hg]
    simp [pyTranslate, hc, translateChar_mem hmem]
  · intro i c hc hmem
    rw [hg]
    simp [pyTranslate, hc, translateChar_not_mem hmem]

/-- Witness for claim C2 at the language label `"Objective-C"`. -/
theorem c2_translation_amended_witness :
    get_safename "Objective-C" = pyTranslate "Objective-C" :=
  (c2_translation_amended "Objective-C" (by decide) (by decide)).1

/-- Claim C3, counterexample: the claim calls the fixed identifier for the
C-sharp label a seven-letter identifier, but `get_safename "C#"` is
`"csharp"`, which has six letters. -/
theorem c3_length_counterexample :
    get_safename "C#" = "csharp" ∧ ¬(("csharp" : String).length = 7) := by
  refine ⟨rfl, by decide⟩

/-- Claim C3 (amended): the exact-match overrides are checked before the
generic translation: `"C++"` maps exactly to the fixed three-letter
identifier `"cpp"` and `"C#"` maps exactly to the fixed six-letter identifier
`"csharp"`, in both cases differing from what the generic translation table
would produce for those labels. -/
theorem c3_overrides_amended :
    get_safename "C++" = "cpp" ∧ ("cpp" : String).length = 3 ∧
    get_safename "C#" = "csharp" ∧ ("csharp" : String).length = 6 ∧
    pyTranslate "C++" ≠ "cpp" ∧ pyTranslate "C#" ≠ "csharp" := by
  refine ⟨rfl, rfl, rfl, rfl, ?_, ?_⟩ <;> decide

/-- Claim C4 (spec-modelled `plccache`): for every starting cache state,
including the unset (`None`) state, `update` does not raise provided the
concept key is present in the authoritative definitions: it returns the new
state with the current template text recorded at the key path (auto-creating
the category level), an unset cache afterwards contains exactly the one
inserted entry, and an immediately following `is_cache_exist` for the same
key path returns true. -/
theorem c4_update_never_raises (s : PlcState) (proglang cat sub tmpl : String)
    (h : alLookup2 s.lang_concepts cat sub = some tmpl) :
    update s proglang cat sub =
      some ({ s with cache := some (alInsert2 (s.cache.getD []) cat sub tmpl) },
            ".cache/" ++ get_safename proglang ++ ".yaml",
            alInsert2 (s.cache.getD []) cat sub tmpl) ∧
    alLookup2 (alInsert2 (s.cache.getD []) cat sub tmpl) cat sub = some tmpl ∧
    (s.cache = none → alInsert2 (s.cache.getD []) cat sub tmpl = [(cat, [(sub, tmpl)])]) ∧
    is_cache_exist { s with cache := some (alInsert2 (s.cache.getD []) cat sub tmpl) }
      proglang cat sub = true := by
  refine ⟨?_, alLookup2_alInsert2_self _ _ _ _, ?_, ?_⟩
  · simp [update, h]
  · intro hc
    simp [hc, alInsert2, alLookup, alInsert]
  · rw [cache_exists_iff]
    exact ⟨_, tmpl, rfl, alLookup2_alInsert2_self _ _ _ _, h⟩

/-- Witness for claim C4: updating from an unset cache with the concept of
the test suite produces exactly the one entry and the cache file name built
from the safe language name. -/
theorem c4_update_witness :
    update ⟨[("Datatypes", [("Primitives", "p1")])], none⟩ "Python 3.10"
        "Datatypes" "Primitives" =
      some (⟨[("Datatypes", [("Primitives", "p1")])],
             some [("Datatypes", [("Primitives", "p1")])]⟩,
            ".cache/Python_3_10.yaml",
            [("Datatypes", [("Primitives", "p1")])]) :=
  (c4_update_never_raises ⟨[("Datatypes", [("Primitives", "p1")])], none⟩ "Python 3.10"
    "Datatypes" "Primitives" "p1" (by decide)).1

/-- Claim C5 (spec-modelled `plccache`): staleness is local to the edited
entry.  Changing the authoritative template of one subconcept leaves the
verdict of a distinct sibling subconcept unchanged; it flips a previously
fresh entry for the edited subconcept to stale whenever the new text differs
from the stored one; and a successful `update` for one subconcept leaves the
cache value at every other key path unchanged. -/
theorem c5_staleness_local (s : PlcState) (lang cat sub1 sub2 told t' cat' sub' : String)
    (hne : sub1 ≠ sub2)
    (hframe : ¬(cat' = cat ∧ sub' = sub2)) :
    (is_cache_exist { s with lang_concepts := alInsert2 s.lang_concepts cat sub2 t' }
        lang cat sub1
      = is_cache_exist s lang cat sub1) ∧
    (alLookup2 s.lang_concepts cat sub2 = some told → t' ≠ told →
      is_cache_exist s lang cat sub2 = true →
      is_cache_exist { s with lang_concepts := alInsert2 s.lang_concepts cat sub2 t' }
        lang cat sub2 = false) ∧
    (∀ s' file written, update s lang cat sub2 = some (s', file, written) →
      alLookup2 written cat' sub' = alLookup2 (s.cache.getD []) cat' sub') := by
  refine ⟨?_, ?_, ?_⟩
  · rw [Bool.eq_iff_iff]
    rw [cache_exists_iff, cache_exists_iff]
    have hx : ¬(cat = cat ∧ sub1 = sub2) := fun hh => hne hh.2
    simp only [alLookup2_alInsert2_ne _ _ _ _ _ _ hx]
  · intro h1 h2 h3
    rcases (cache_exists_iff s lang cat sub2).mp h3 with ⟨c, stored, hc, hcc, hauth⟩
    have hst : stored = told := by
      rw [h1] at hauth
      exact (Option.some_inj.mp hauth).symm
    cases hb : is_cache_exist { s with lang_concepts := alInsert2 s.lang_concepts cat sub2 t' }
        lang cat sub2 with
    | false => rfl
    | true =>
      exfalso
      rcases (cache_exists_iff _ lang cat sub2).mp hb with ⟨c₂, stored₂, hc₂, hcc₂, hauth₂⟩
      have hcx : c₂ = c := by
        have hsc : s.cache = some c₂ := hc₂
        rw [hc] at hsc
        exact (Option.some_inj.mp hsc).symm
      subst hcx
      have hs2 : stored₂ = stored := by
        rw [hcc] at hcc₂
        exact (Option.some_inj.mp hcc₂).symm
      have ht2 : stored₂ = t' := by
        have hself := alLookup2_alInsert2_self s.lang_concepts cat sub2 t'
        rw [hself] at hauth₂
        exact (Option.some_inj.mp hauth₂).symm
      exact h2 (by rw [← ht2, hs2, hst])
  · intro s' file written hup
    unfold update at hup
    cases hu : alLookup2 s.lang_concepts cat sub2 with
    | none =>
      rw [hu] at hup
      exact absurd hup (by simp)
    | some tmpl0 =>
      rw [hu] at hup
      simp only [Option.some_inj] at hup
      have hw : written = alInsert2 (s.cache.getD []) cat sub2 tmpl0 := by
        have := congrArg (fun t => t.2.2) hup
        exact this.symm
      rw [hw]
      exact alLookup2_alInsert2_ne _ _ _ _ _ _ hframe

/-- Witness for claim C5: editing the template of subconcept `"B"` leaves the
cached verdict for its sibling `"A"` unchanged on a concrete state. -/
theorem c5_staleness_witness :
    is_cache_exist
      { (⟨[("Cat", [("A", "pa"), ("B", "pb")])], some [("Cat", [("A", "pa")])]⟩ : PlcState) with
        lang_concepts := alInsert2 [("Cat", [("A", "pa"), ("B", "pb")])] "Cat" "B" "pc" }
      "L" "Cat" "A" =
    is_cache_exist (⟨[("Cat", [("A", "pa"), ("B", "pb")])],
        some [("Cat", [("A", "pa")])]⟩ : PlcState) "L" "Cat" "A" :=
  (c5_staleness_local ⟨[("Cat", [("A", "pa"), ("B", "pb")])], some [("Cat", [("A", "pa")])]⟩
    "L" "Cat" "A" "B" "pb" "pc" "Cat" "A" (by decide) (by decide)).1

/-- Claim C6: the external text-generation call is retried with randomized
exponential backoff configured with waits between 1 and 60 seconds up to a
ceiling of six attempts; an oracle failing on every attempt surfaces as the
exhaustion error wrapping the sixth attempt, success on the sixth attempt is
still returned while success only on a seventh would not be reached, and
`ai_ask` re-raises every error kind rather than swallowing it. -/
theorem c6_retry_and_surfacing :
    request_retry_policy.wait_min = 1 ∧
    request_retry_policy.wait_max = 60 ∧
    request_retry_policy.stop_attempts = 6 ∧
    (∀ faults : Nat → ApiFault,
      ai_ask (fun i => Except.error (faults i)) =
        Except.error (AskError.retryExhausted (faults 5))) ∧
    (∀ (s : String) (e : ApiFault),
      ai_ask (fun i => if i = 5 then Except.ok s else Except.error e) = Except.ok s) ∧
    (∀ (s : String) (e : ApiFault),
      ai_ask (fun i => if i = 6 then Except.ok s else Except.error e) =
        Except.error (AskError.retryExhausted e)) ∧
    (∀ (oracle : Nat → Except ApiFault String) (e : AskError),
      request_text_chatcompletion oracle = Except.error e →
      ai_ask oracle = Except.error e) := by
  refine ⟨rfl, rfl, rfl, ?_, ?_, ?_, ?_⟩
  · intro faults
    rfl
  · intro s e
    rfl
  · intro s e
    rfl
  · intro oracle e h
    unfold ai_ask
    rw [h]
    cases e with
    | api f => cases f <;> rfl
    | retryExhausted f => rfl

/-- Witness for claim C6: a permanently failing oracle is surfaced by
`ai_ask` as the exhaustion error. -/
theorem c6_retry_witness :
    ai_ask (fun _ => Except.error ApiFault.connection) =
      Except.error (AskError.retryExhausted ApiFault.connection) :=
  c6_retry_and_surfacing.2.2.2.2.2.2 (fun _ => Except.error ApiFault.connection)
    (AskError.retryExhausted ApiFault.connection) rfl

/-- Claim C7: the verification utility maps each sitemap URL to its
corresponding file under the docs directory, and the script exits non-zero if
and only if at least one sitemap URL lacks a corresponding existing file;
when every URL resolves to an existing file it exits zero. -/
theorem c7_verify_sitemap_exit (sitemap_urls : List String) (file_exists : String → Bool) :
    ((verify_sitemap sitemap_urls "docs" file_exists).1 =
      sitemap_urls.map (fun u => (u, url_to_file_path "docs" u))) ∧
    (verify_sitemap_exit_code sitemap_urls file_exists ≠ 0 ↔
      ∃ u ∈ sitemap_urls, file_exists (url_to_file_path "docs" u) = false) ∧
    ((∀ u ∈ sitemap_urls, file_exists (url_to_file_path "docs" u) = true) →
      verify_sitemap_exit_code sitemap_urls file_exists = 0) := by
  have key : ∀ L : List (String × String),
      (L.filter (fun p => !file_exists p.2) = []) ↔ ∀ p ∈ L, file_exists p.2 = true := by
    intro L
    rw [List.filter_eq_nil_iff]
    constructor
    · intro h p hp
      have := h p hp
      simpa using this
    · intro h p hp
      simp [h p hp]
  have hexit : verify_sitemap_exit_code sitemap_urls file_exists =
      if (sitemap_urls.map (fun url => (url, url_to_file_path "docs" url))).filter
          (fun p => !file_exists p.2) = [] then 0 else 1 := by
    simp [verify_sitemap_exit_code, verify_sitemap, List.isEmpty_iff]
  refine ⟨rfl, ?_, ?_⟩
  · rw [hexit]
    by_cases hnil : (sitemap_urls.map (fun url => (url, url_to_file_path "docs" url))).filter
        (fun p => !file_exists p.2) = []
    · rw [if_pos hnil]
      simp only [ne_eq, not_true_eq_false]
      constructor
      · intro h
        exact h.elim
      · rintro ⟨u, hu, hf⟩
        have hmem : (u, url_to_file_path "docs" u) ∈
            sitemap_urls.map (fun url => (url, url_to_file_path "docs" url)) :=
          List.mem_map_of_mem _ hu
        have := (key _).mp hnil _ hmem
        simp only at this
        rw [this] at hf
        simp at hf
    · rw [if_neg hnil]
      constructor
      · intro _
        by_contra hne
        push_neg at hne
        apply hnil
        apply (key _).mpr
        intro p hp
        rcases List.mem_map.mp hp with ⟨u, hu, hpu⟩
        subst hpu
        have := hne u hu
        cases hb : file_exists (url_to_file_path "docs" u) with
        | false => exact absurd hb this
        | true => rfl
      · intro _
        exact one_ne_zero
  · intro hall
    rw [hexit, if_pos]
    apply (key _).mpr
    intro p hp
    rcases List.mem_map.mp hp with ⟨u, hu, hpu⟩
    subst hpu
    exact hall u hu

/-- Witness for claim C7: with a rendered tree containing every file, the
checker exits zero on a one-entry sitemap. -/
theorem c7_verify_witness :
    verify_sitemap_exit_code ["https://prog-lang-compare.netlify.app/concepts/python.html"]
      (fun _ => true) = 0 :=
  (c7_verify_sitemap_exit ["https://prog-lang-compare.netlify.app/concepts/python.html"]
    (fun _ => true)).2.2 (fun u hu => rfl)

/-- Claim C8: in the generated sitemap every page of shape
`concepts/<name>.html` receives change frequency `weekly` and priority `0.9`,
every page of shape `concepts/<lang>/<concept>.html` receives change
frequency `monthly` and priority `0.8`, and the root index receives `weekly`
and priority `1.0`, so the classification of language-landing pages is
strictly higher than that of individual concept pages. -/
theorem c8_sitemap_classification (name lang concept lm1 lm2 lm3 : String)
    (h1 : '/' ∉ name.data) (h2 : '/' ∉ lang.data) (h3 : '/' ∉ concept.data) :
    concept_sitemap_entry ("concepts/" ++ name ++ ".html") lm1 =
      ⟨sitemap_BASE_URL ++ "/" ++ ("concepts/" ++ name ++ ".html"), lm1, "weekly", "0.9"⟩ ∧
    concept_sitemap_entry ("concepts/" ++ lang ++ "/" ++ concept ++ ".html") lm2 =
      ⟨sitemap_BASE_URL ++ "/" ++ ("concepts/" ++ lang ++ "/" ++ concept ++ ".html"),
       lm2, "monthly", "0.8"⟩ ∧
    index_sitemap_entry lm3 = ⟨sitemap_BASE_URL ++ "/", lm3, "weekly", "1.0"⟩ ∧
    (9 : ℚ) / 10 > 8 / 10 := by
  have hl : is_language_landing ("concepts/" ++ name ++ ".html") = true := by
    unfold is_language_landing
    rw [landing_split name h1]
    simp [List.getD, html_suffix]
  have hc : is_language_landing ("concepts/" ++ lang ++ "/" ++ concept ++ ".html") = false := by
    unfold is_language_landing
    have hlen := concept_deep_split lang concept h2 h3
    simp [hlen]
  refine ⟨?_, ?_, rfl, by norm_num⟩
  · simp [concept_sitemap_entry, hl]
  · simp [concept_sitemap_entry, hc]

/-- Witness for claim C8 at the landing page of a language named `python`. -/
theorem c8_classification_witness :
    concept_sitemap_entry ("concepts/" ++ "python" ++ ".html") "2024-01-01" =
      ⟨sitemap_BASE_URL ++ "/" ++ ("concepts/" ++ "python" ++ ".html"),
       "2024-01-01", "weekly", "0.9"⟩ :=
  (c8_sitemap_classification "python" "python" "variables" "2024-01-01" "x" "y"
    (by decide) (by decide) (by decide)).1

/-- Claim C9: page rendering is deterministic and idempotent apart from
timestamps.  With the timestamp source abstracted as the explicit
`date_modified` parameter, two runs of `generate_page_template` on unchanged
inputs produce outputs that agree byte-for-byte outside the single
`dateModified` field, and `generate_language_landing_page` takes no
timestamp at all, so re-running it reproduces the identical document. -/
theorem c9_renderers_deterministic
    (language concept_key concept_title content_html category : String)
    (all_languages : Option (List String)) (d1 d2 : String)
    (lang2 : String) (concepts : List String) :
    (∃ pre post : String,
      generate_page_template language concept_key concept_title content_html category
        all_languages d1 = pre ++ (d1 ++ post) ∧
      generate_page_template language concept_key concept_title content_html category
        all_languages d2 = pre ++ (d2 ++ post)) ∧
    generate_language_landing_page lang2 concepts =
      generate_language_landing_page lang2 concepts := by
  refine ⟨⟨_, _, rfl, rfl⟩, rfl⟩

/-- Claim C10, counterexample: the two slugify functions disagree on the
language label `"Python 3.10"` — the static-pages one deletes the period
before collapsing while the landing one turns it into a hyphen. -/
theorem c10_slugify_counterexample :
    slugify_static "Python 3.10" = "python-310" ∧
    slugify_landing "Python 3.10" = "python-3-10" ∧
    slugify_static "Python 3.10" ≠ slugify_landing "Python 3.10" := by
  refine ⟨by decide, by decide, by decide⟩

/-- Claim C10 (amended): the two slugify functions agree on every language
label whose lowercased form consists only of ASCII letters, digits, and
isolated interior spaces or hyphens, and for such labels the breadcrumb
target written into concept pages equals `../` followed by the landing-page
file name.  Outside this domain the two functions can disagree, as the
label `"Python 3.10"` shows. -/
theorem c10_slugify_agree_amended (s : String) (h : goodLabel s = true) :
    slugify_static s = slugify_landing s ∧
    concept_breadcrumb_href s = "../" ++ landing_output_filename s := by
  have hs := slugify_agree s h
  refine ⟨hs, ?_⟩
  unfold concept_breadcrumb_href landing_output_filename
  rw [hs, String.append_assoc]

/-- Witness for claim C10 at the language label `"Objective-C"`. -/
theorem c10_agree_witness :
    slugify_static "Objective-C" = slugify_landing "Objective-C" :=
  (c10_slugify_agree_amended "Objective-C" (by decide)).1
